import Mathlib

/-!
# Verification of the busking1 light-show controller

Shallow embedding of the parts of the repository relevant to the frozen
claims, together with theorems settling each claim.

Python floats are modelled as exact rationals (`ℚ`), Python ints as `Int`
or `Nat`, Python exceptions as an explicit `PyErr` error value threaded
through `Except` or returned alongside the post-state (Python mutations
performed before a raise persist, so fallible mutators return the
post-state plus an optional error).

Embedded modules:
* `src/metronome.py`      — `Metronome`, `BeatInfo`
* `src/apc_mini_mk2.py`   — palette quantizer, pad-color RLE, `Device`
* `src/os2l_server.py`    — OS2L event framing and dispatch
-/

/-! ## Python arithmetic semantics helpers -/

/-- Python's `%` on floats (here: exact rationals): `x % y = x - y * floor (x / y)`.
Only used with nonzero `y` by the embedded code. -/
def pymod (x y : ℚ) : ℚ := x - y * ⌊x / y⌋

/-- Python's `int()` on a float: truncation toward zero. -/
def pytrunc (q : ℚ) : ℤ := if 0 ≤ q then ⌊q⌋ else -⌊-q⌋

/-- Python exception kinds raised by the embedded code. -/
inductive PyErr where
  | zeroDivisionError
  | attributeError
  | keyError
  | valueError
  | assertionError
  | indexError
deriving DecidableEq, Repr

/-! ## `src/metronome.py` -/

/-- `metronome.BeatInfo` (src/metronome.py:6-11). -/
structure BeatInfo where
  t : ℚ
  delta_t : ℚ
  count : ℤ
  this_frame : Bool
deriving DecidableEq, Repr

/-- `metronome.Metronome` instance state (src/metronome.py:14-24).
The two constants `tap_queue_max_len = 4` and `tap_queue_reset_secs = 1.0`
are set in `__init__` and never written again, so they are modelled as
literals in the operations. -/
structure Metronome where
  beats_per_sec : ℚ
  sync_pos : ℚ
  sync_secs : ℚ
  prev_pos : ℚ
  now_pos : ℚ
  now_secs : ℚ
  delta_secs : ℚ
  tap_queue : List ℚ
deriving DecidableEq, Repr

/-- `Metronome.__init__` (src/metronome.py:14-24).  `t0` is the
`time.perf_counter()` reading taken in the constructor. -/
def Metronome.init (t0 : ℚ) : Metronome where
  beats_per_sec := 1
  sync_pos := 0
  sync_secs := t0
  prev_pos := 0
  now_pos := 0
  now_secs := t0
  delta_secs := 0
  tap_queue := []

/-- `Metronome.sync_beats` (src/metronome.py:30-33).  `now` is the
`time.perf_counter()` reading taken inside the call. -/
def Metronome.sync_beats (m : Metronome) (pos beats_per_sec now : ℚ) : Metronome :=
  { m with beats_per_sec := beats_per_sec, sync_pos := pos, sync_secs := now }

/-- `Metronome.on_one` (src/metronome.py:35-37). -/
def Metronome.on_one (m : Metronome) : Metronome :=
  { m with sync_pos := 0, sync_secs := m.now_secs }

/-- The tap-queue update at the start of `Metronome.on_tap`
(src/metronome.py:40-47): reset the queue if the last tap is stale,
drop the oldest entry if the queue is full, then append `now_secs`. -/
def Metronome.updatedTapQueue (m : Metronome) : List ℚ :=
  let q :=
    match m.tap_queue.getLast? with
    | none => m.tap_queue
    | some last =>
        if 1 ≤ m.now_secs - last then []
        else if 4 ≤ m.tap_queue.length then m.tap_queue.tail
        else m.tap_queue
  q ++ [m.now_secs]

/-- `Metronome.on_tap` (src/metronome.py:39-60).  When the updated queue is
full, `(len(q) - 1.0) / (q[-1] - q[0])` is computed; Python float division
raises `ZeroDivisionError` when the divisor is exactly zero, which is
modelled by the `Except` error. -/
def Metronome.on_tap (m : Metronome) : Except PyErr Metronome :=
  let q := m.updatedTapQueue
  if 4 ≤ q.length then
    if q.getLast?.getD 0 - q.head?.getD 0 = 0 then
      .error .zeroDivisionError
    else
      .ok { m with
        tap_queue := q,
        beats_per_sec := ((q.length : ℚ) - 1) / (q.getLast?.getD 0 - q.head?.getD 0),
        sync_pos := if pymod m.now_pos 1 ≤ 1/4 then m.now_pos else m.now_pos + 1,
        sync_secs := m.now_secs }
  else
    .ok { m with tap_queue := q }

/-- `Metronome.tick` (src/metronome.py:62-70).  `now` is the
`time.perf_counter()` reading taken inside the call. -/
def Metronome.tick (m : Metronome) (now : ℚ) : Metronome :=
  { m with
    now_secs := now,
    delta_secs := now - m.now_secs,
    prev_pos := m.now_pos,
    now_pos := m.sync_pos + m.beats_per_sec * (now - m.sync_secs) }

/-- `Metronome.get_beat_info` (src/metronome.py:72-83). -/
def Metronome.get_beat_info (m : Metronome) (scaler : ℚ) : BeatInfo :=
  let scaled_prev_pos := scaler * m.prev_pos
  let scaled_prev_count := pytrunc scaled_prev_pos
  let scaled_now_pos := scaler * m.now_pos
  let scaled_now_count := pytrunc scaled_now_pos
  { t := pymod scaled_now_pos 1
    delta_t := scaled_now_pos - scaled_prev_pos
    count := scaled_now_count
    this_frame := scaled_prev_count != scaled_now_count }

/-! ## `src/apc_mini_mk2.py` — constants and palette -/

/-- `apc_mini_mk2.PAD_COUNT` (src/apc_mini_mk2.py:12-14): 8 × 8 pads. -/
def PAD_COUNT : Nat := 64

/-- `apc_mini_mk2.split_int_for_midi` (src/apc_mini_mk2.py:46-51): breaks a
14-bit int into two 7-bit ints. -/
def split_int_for_midi (x : Nat) : Nat × Nat :=
  ((x >>> 7) &&& 0x7F, x &&& 0x7F)

/-- `apc_mini_mk2.PadColorPalette` (src/apc_mini_mk2.py:96-113): the 128
0xRRGGBB palette entries, in source order. -/
def PadColorPalette : List Nat := [
  0x000000, 0x1e1e1e, 0x7f7f7f, 0xffffff, 0xff4c4c, 0xff0000, 0x590000, 0x190000,
  0xffbd6c, 0xff5400, 0x591d00, 0x271b00, 0xffff4c, 0xffff00, 0x595900, 0x191900,
  0x88ff4c, 0x54ff00, 0x1d5900, 0x142b00, 0x4cff4c, 0x00ff00, 0x005900, 0x001900,
  0x4cff5e, 0x00ff19, 0x00590d, 0x001902, 0x4cff88, 0x00ff55, 0x00591d, 0x001f12,
  0x4cffb7, 0x00ff99, 0x005935, 0x001912, 0x4cc3ff, 0x00a9ff, 0x004152, 0x001019,
  0x4c88ff, 0x0055ff, 0x001d59, 0x000819, 0x4c4cff, 0x0000ff, 0x000059, 0x000019,
  0x874cff, 0x5400ff, 0x190064, 0x0f0030, 0xff4cff, 0xff00ff, 0x590059, 0x190019,
  0xff4c87, 0xff0054, 0x59001d, 0x220013, 0xff1500, 0x993500, 0x795100, 0x436400,
  0x033900, 0x005735, 0x00547f, 0x0000ff, 0x00454f, 0x2500cc, 0x7f7f7f, 0x202020,
  0xff0000, 0xbdff2d, 0xafed06, 0x64ff09, 0x108b00, 0x00ff87, 0x00a9ff, 0x002aff,
  0x3f00ff, 0x7a00ff, 0xb21a7d, 0x402100, 0xff4a00, 0x88e106, 0x72ff15, 0x00ff00,
  0x3bff26, 0x59ff71, 0x38ffcc, 0x5b8aff, 0x3151c6, 0x877fe9, 0xd31dff, 0xff005d,
  0xff7f00, 0xb9b000, 0x90ff00, 0x835d07, 0x392b00, 0x144c10, 0x0d5038, 0x15152a,
  0x16205a, 0x693c1c, 0xa8000a, 0xde513d, 0xd86a1c, 0xffe126, 0x9ee12f, 0x67b50f,
  0x1e1e30, 0xdcff6b, 0x80ffbd, 0x9a99ff, 0x8e66ff, 0x404040, 0x757575, 0xe0ffff,
  0xa00000, 0x350000, 0x1ad000, 0x074200, 0xb9b000, 0x3f3100, 0xb35f00, 0x4b1502]

/-- Red byte of a packed 0xRRGGBB color: `(c >> 16) & 0xFF`
(src/apc_mini_mk2.py:121). -/
def colorR (c : Nat) : Int := ((c >>> 16) &&& 0xFF : Nat)

/-- Green byte of a packed 0xRRGGBB color: `(c >> 8) & 0xFF`
(src/apc_mini_mk2.py:122). -/
def colorG (c : Nat) : Int := ((c >>> 8) &&& 0xFF : Nat)

/-- Blue byte of a packed 0xRRGGBB color: `c & 0xFF`
(src/apc_mini_mk2.py:123). -/
def colorB (c : Nat) : Int := ((c &&& 0xFF : Nat) : Int)

/-- Squared RGB distance between the requested `(r, g, b)` and packed
palette color `c` (src/apc_mini_mk2.py:125-129). -/
def distSq (r g b : Int) (c : Nat) : Int :=
  (r - colorR c) * (r - colorR c) +
  (g - colorG c) * (g - colorG c) +
  (b - colorB c) * (b - colorB c)

/-- The `for i, c in enumerate(PadColorPalette)` loop of
`rgb_to_pad_palette_index` (src/apc_mini_mk2.py:120-132): `i` is the index
of the head of the remaining list, `best`/`best_dist_sq` the running state;
the running best is replaced only on a strictly smaller distance. -/
def quantAux (r g b : Int) : Nat → List Nat → Option Nat → Int → Option Nat
  | _, [], best, _ => best
  | i, c :: rest, best, best_dist_sq =>
    if distSq r g b c < best_dist_sq then
      quantAux r g b (i + 1) rest (some i) (distSq r g b c)
    else
      quantAux r g b (i + 1) rest best best_dist_sq

/-- `apc_mini_mk2.rgb_to_pad_palette_index` (src/apc_mini_mk2.py:115-134):
nearest palette color by squared RGB distance; `best_idx` starts as `None`
(modelled by `Option`) and `best_dist_sq` as `0xFFFFFFFF`. -/
def rgb_to_pad_palette_index (r g b : Int) : Option Nat :=
  quantAux r g b 0 PadColorPalette none 0xFFFFFFFF

/-! ## `src/apc_mini_mk2.py` — pad-color run-length encoding -/

/-- An RGB triple as stored in a `PadLedState` (Python ints). -/
abbrev Rgb := Int × Int × Int

/-- One run in the bulk pad-color SysEx message
(src/apc_mini_mk2.py:564-570): inclusive start/end note plus a color. -/
structure PadRun where
  run_start : Nat
  run_end : Nat
  color : Rgb
deriving DecidableEq, Repr

/-- The run-building loop of `Device._send_pad_colors_by_sysex`
(src/apc_mini_mk2.py:572-591): walk the notes in order; extend the current
run while the color matches componentwise, otherwise flush it and start a
new one; flush the final run at the end. -/
def padRunsAux : Nat → List Rgb → Option PadRun → List PadRun → List PadRun
  | _, [], cur, acc => acc ++ cur.toList
  | note, c :: rest, none, acc =>
      padRunsAux (note + 1) rest (some ⟨note, note, c⟩) acc
  | note, c :: rest, some run, acc =>
      if run.color = c then
        padRunsAux (note + 1) rest (some { run with run_end := note }) acc
      else
        padRunsAux (note + 1) rest (some ⟨note, note, c⟩) (acc ++ [run])

/-- Run list produced by `Device._send_pad_colors_by_sysex` for the pad
colors `colors` starting at note `note_start` (src/apc_mini_mk2.py:553-591). -/
def padColorRuns (note_start : Nat) (colors : List Rgb) : List PadRun :=
  padRunsAux note_start colors none []

/-- Byte payload of one run as appended by `append_run`
(src/apc_mini_mk2.py:564-570): start note, end note, and each channel split
into two 7-bit bytes. -/
def padRunData (run : PadRun) : List Nat :=
  [run.run_start, run.run_end,
   (split_int_for_midi run.color.1.toNat).1, (split_int_for_midi run.color.1.toNat).2,
   (split_int_for_midi run.color.2.1.toNat).1, (split_int_for_midi run.color.2.1.toNat).2,
   (split_int_for_midi run.color.2.2.toNat).1, (split_int_for_midi run.color.2.2.toNat).2]

/-- Decoding a run list back to a flat color sequence: each run covers the
inclusive note range `[run_start, run_end]`, i.e. `run_end + 1 - run_start`
consecutive pads of its color. -/
def decodeRuns (runs : List PadRun) : List Rgb :=
  runs.flatMap fun run => List.replicate (run.run_end + 1 - run.run_start) run.color

/-! ## `src/os2l_server.py` — JSON values and `json.loads` on flat objects

The server's framing loop cuts the receive buffer at the first `}` and
feeds the slice to `json.loads`; per the code's own FIXME comments the
protocol carries only flat (non-nested) JSON objects.  `json_loads` below
models Python's `json.loads` restricted to such flat objects with string
keys and string / integer / boolean / null values, which is everything the
OS2L wire format uses. -/

/-- A decoded JSON scalar value. -/
inductive JVal where
  | jstr (s : List Char)
  | jnum (n : Int)
  | jbool (b : Bool)
  | jnull
deriving DecidableEq, Repr

/-- Scan a string literal body up to the closing quote; returns the body
and the remaining input. -/
def scanStringLit : List Char → List Char → Option (List Char × List Char)
  | [], _ => none
  | '"' :: rest, acc => some (acc.reverse, rest)
  | c :: rest, acc => scanStringLit rest (c :: acc)

/-- Scan a run of decimal digits into a number; `found` records whether at
least one digit was seen. -/
def scanDigits : List Char → Nat → Bool → Option (Nat × List Char)
  | c :: rest, acc, found =>
      if c.isDigit then scanDigits rest (acc * 10 + (c.toNat - '0'.toNat)) true
      else if found then some (acc, c :: rest) else none
  | [], acc, found => if found then some (acc, []) else none

/-- Parse one JSON scalar value (string, `true`, `false`, `null`, or an
optionally negated integer). -/
def parseJVal : List Char → Option (JVal × List Char)
  | '"' :: rest =>
      (scanStringLit rest []).map fun (s, rem) => (.jstr s, rem)
  | 't' :: 'r' :: 'u' :: 'e' :: rest => some (.jbool true, rest)
  | 'f' :: 'a' :: 'l' :: 's' :: 'e' :: rest => some (.jbool false, rest)
  | 'n' :: 'u' :: 'l' :: 'l' :: rest => some (.jnull, rest)
  | '-' :: rest =>
      (scanDigits rest 0 false).map fun (n, rem) => (.jnum (-(n : Int)), rem)
  | input =>
      (scanDigits input 0 false).map fun (n, rem) => (.jnum (n : Int), rem)

/-- Parse the members of a flat JSON object after the opening `\x7b`,
accumulating `key : value` pairs until the closing `\x7d`.  `fuel` bounds
the recursion by the input length. -/
def parseMembers : Nat → List Char → List (List Char × JVal) →
    Option (List (List Char × JVal) × List Char)
  | 0, _, _ => none
  | _ + 1, '\x7d' :: rest, acc => some (acc.reverse, rest)
  | fuel + 1, '"' :: rest, acc => do
      let (key, rem) ← scanStringLit rest []
      match rem with
      | ':' :: rem2 => do
          let (v, rem3) ← parseJVal rem2
          match rem3 with
          | ',' :: rem4 => parseMembers fuel rem4 ((key, v) :: acc)
          | '\x7d' :: rem4 => some (((key, v) :: acc).reverse, rem4)
          | _ => none
      | _ => none
  | _ + 1, _, _ => none

/-- `json.loads` on one complete flat-object slice: the whole input must be
exactly one object.  Returns the key/value pairs in source order. -/
def json_loads (s : List Char) : Option (List (List Char × JVal)) :=
  match s with
  | '\x7b' :: rest =>
      match parseMembers (s.length + 1) rest [] with
      | some (kvs, []) => some kvs
      | _ => none
  | _ => none

/-- Python dict lookup `d[k]` on the decoded object: later duplicate keys
win (as in a Python dict built by `json.loads`); a missing key raises
`KeyError`. -/
def jget (kvs : List (List Char × JVal)) (k : List Char) : Except PyErr JVal :=
  match kvs.reverse.find? (fun kv => kv.1 = k) with
  | some kv => .ok kv.2
  | none => .error .keyError

/-- Python `d.get(k, None)` on the decoded object. -/
def jgetOpt (kvs : List (List Char × JVal)) (k : List Char) : Option JVal :=
  (kvs.reverse.find? (fun kv => kv.1 = k)).map (·.2)

/-! ## `src/os2l_server.py` — events, dispatch and the receive loop -/

/-- `os2l_server.BtnEvent` / `CmdEvent` / `BeatEvent`
(src/os2l_server.py:11-27).  Field values are the raw decoded JSON values,
as stored by the Python dataclass constructors. -/
inductive Os2lEvent where
  | btn (name : JVal) (page : Option JVal) (is_on : Bool)
  | cmd (idnum : JVal) (param : JVal)
  | beat (change : JVal) (pos : JVal) (bpm : JVal) (strength : JVal)
deriving DecidableEq, Repr

/-- The `evt` dispatch of `Os2lServer.__recv_from_client`
(src/os2l_server.py:157-177): build the event object for `btn` / `cmd` /
`beat`; an unknown `evt` value is only printed (`.ok none`); a missing
field raises `KeyError`. -/
def dispatchEvent (kvs : List (List Char × JVal)) : Except PyErr (Option Os2lEvent) := do
  let evt ← jget kvs "evt".data
  if evt = .jstr "btn".data then do
    let name ← jget kvs "name".data
    let state ← jget kvs "state".data
    pure (some (.btn name (jgetOpt kvs "page".data) (state = .jstr "on".data)))
  else if evt = .jstr "cmd".data then do
    let idnum ← jget kvs "id".data
    let param ← jget kvs "param".data
    pure (some (.cmd idnum param))
  else if evt = .jstr "beat".data then do
    let change ← jget kvs "change".data
    let pos ← jget kvs "pos".data
    let bpm ← jget kvs "bpm".data
    let strength ← jget kvs "strength".data
    pure (some (.beat change pos bpm strength))
  else
    pure none

/-- The buffer-consuming `while` loop of `Os2lServer.__recv_from_client`
(src/os2l_server.py:143-177): while the buffer is nonempty, assert it
starts with `\x7b`, find the first `\x7d` (stop and keep the buffer if there
is none), slice out the frame, parse and dispatch it.  Returns the
remaining buffer, the events yielded so far, and the exception (if any)
that aborted the loop — state mutated before a raise persists.  Each
iteration consumes at least one character, so running with the buffer
length as fuel (as `recv_from_client` does) never exhausts it. -/
def consumeLoop : Nat → List Char → List Os2lEvent → List Char × List Os2lEvent × Option PyErr
  | _, [], evs => ([], evs, none)
  | 0, buf, evs => (buf, evs, none)
  | fuel + 1, c :: cs, evs =>
    if c ≠ '\x7b' then (c :: cs, evs, some .assertionError)
    else
      match (c :: cs).findIdx? (· = '\x7d') with
      | none => (c :: cs, evs, none)
      | some e =>
        let event_str := (c :: cs).take (e + 1)
        let rest := (c :: cs).drop (e + 1)
        match json_loads event_str with
        | none => (rest, evs, some .valueError)
        | some kvs =>
          match dispatchEvent kvs with
          | .error err => (rest, evs, some err)
          | .ok none => consumeLoop fuel rest evs
          | .ok (some ev) => consumeLoop fuel rest (evs ++ [ev])

/-- `Os2lServer` connection state relevant to receiving
(src/os2l_server.py:35-41): whether a client socket exists, whether it is
registered with the selector, and the receive buffer. -/
structure ServerState where
  client_connected : Bool
  client_registered : Bool
  recv_buffer : List Char
deriving DecidableEq, Repr

/-- `Os2lServer.__recv_from_client` (src/os2l_server.py:119-177).  `data`
is the value returned by `socket.recv(1024)`: `some bytes` for received
bytes (a zero-length read on peer close is `some []`; CPython's `recv`
never returns `None`), `none` for the `data is None` case the code tests
for.  In the `none` branch the code closes the socket and clears the
buffer but never calls `selector.unregister`, so the registration flag is
left unchanged. -/
def recv_from_client (s : ServerState) (data : Option (List Char)) :
    ServerState × List Os2lEvent × Option PyErr :=
  match data with
  | none =>
      ({ s with client_connected := false, recv_buffer := [] }, [], none)
  | some bytes =>
      let buf := s.recv_buffer ++ bytes
      let (rest, evs, err) := consumeLoop buf.length buf []
      ({ s with recv_buffer := rest }, evs, err)

/-! ## `src/apc_mini_mk2.py` — control IDs, state and the `Device` class -/

/-- `apc_mini_mk2.ControlType` (src/apc_mini_mk2.py:194-200). -/
inductive ControlType where
  | invalid
  | pad
  | trackButton
  | sceneButton
  | shiftButton
  | fader
deriving DecidableEq, Repr

/-- `apc_mini_mk2.ControlID` (src/apc_mini_mk2.py:202-209); equality and
hashing are by the `(ty, col, row)` tuple, which structural equality
models. -/
structure ControlID where
  ty : ControlType
  col : Int := 0
  row : Int := 0
deriving DecidableEq, Repr

/-- `ControlID.is_pad` (src/apc_mini_mk2.py:226-227): type test only. -/
def ControlID.is_pad (c : ControlID) : Bool := c.ty = ControlType.pad

/-- `ControlID.is_button` (src/apc_mini_mk2.py:250-253). -/
def ControlID.is_button (c : ControlID) : Bool :=
  c.ty = ControlType.trackButton ∨ c.ty = ControlType.sceneButton ∨
  c.ty = ControlType.shiftButton

/-- `ControlID._from_midi_note` (src/apc_mini_mk2.py:285-295).  The pad
branch only tests `note < PAD_COUNT` (no lower bound); Python `%` and `//`
floor toward negative infinity, modelled by `Int.fmod` / `Int.fdiv`. -/
def ControlID.from_midi_note (note : Int) : Except PyErr ControlID :=
  if note < 64 then .ok ⟨.pad, Int.fmod note 8, Int.fdiv note 8⟩
  else if 0x64 ≤ note ∧ note < 0x6C then .ok ⟨.trackButton, note - 0x64, 0⟩
  else if 0x70 ≤ note ∧ note < 0x78 then .ok ⟨.sceneButton, 0, note - 0x70⟩
  else if note = 0x7A then .ok ⟨.shiftButton, 0, 0⟩
  else .error .valueError

/-- `ControlID._to_midi_note` (src/apc_mini_mk2.py:297-306). -/
def ControlID.to_midi_note (c : ControlID) : Except PyErr Int :=
  match c.ty with
  | .pad => .ok (c.col + c.row * 8)
  | .trackButton => .ok (c.col + 0x64)
  | .sceneButton => .ok (c.row + 0x70)
  | .shiftButton => .ok 0x7A
  | _ => .error .valueError

/-- `ControlID._from_midi_control` (src/apc_mini_mk2.py:308-312). -/
def ControlID.from_midi_control (midi_ctrl : Int) : Except PyErr ControlID :=
  if 0x30 ≤ midi_ctrl ∧ midi_ctrl < 0x39 then .ok ⟨.fader, midi_ctrl - 0x30, 0⟩
  else .error .valueError

/-- `apc_mini_mk2.PadLedState` / `ButtonLedState` (src/apc_mini_mk2.py:136-151),
the two value types stored in `Device.led_state_by_id`.  Behaviors are the
`IntEnum` codes (`PadLedBehavior.PCT_100 = 6`, `ButtonLedBehavior.OFF = 0`). -/
inductive LedState where
  | pad (behavior : Nat) (r g b : Int)
  | btn (behavior : Nat)
deriving DecidableEq, Repr

/-- `apc_mini_mk2.ButtonInputState` / `FaderInputState`
(src/apc_mini_mk2.py:159-186), the two value types stored in
`Device.input_state_by_id`. -/
inductive InputState where
  | button (is_down was_down : Bool)
  | fader (pos : Int)
deriving DecidableEq, Repr

/-- `update_prev_state` (src/apc_mini_mk2.py:175-176,185-186): buttons copy
`is_down` into `was_down`; faders do nothing. -/
def InputState.updatePrev : InputState → InputState
  | .button d _ => .button d d
  | .fader p => .fader p

/-- Outgoing MIDI messages constructed by the driver. -/
inductive MidiMsg where
  | note_on (channel : Nat) (note : Int) (velocity : Nat)
  | sysex (data : List Nat)
deriving DecidableEq, Repr

/-- `apc_mini_mk2.MakeSysExMessage` (src/apc_mini_mk2.py:53-62). -/
def MakeSysExMessage (msg_type : Nat) (data : List Nat) : MidiMsg :=
  .sysex ([0x47, 0x7F, 0x4F, msg_type] ++
          [(split_int_for_midi data.length).1, (split_int_for_midi data.length).2] ++ data)

/-- Incoming MIDI messages handled by `Device.tick`. -/
inductive MidiInMsg where
  | note_on (note : Int)
  | note_off (note : Int)
  | sysex (data : List Nat)
  | control_change (control : Int) (value : Int)
  | other
deriving DecidableEq, Repr

/-- `apc_mini_mk2.EventType` (src/apc_mini_mk2.py:323-327). -/
inductive EventType where
  | pressed
  | released
  | moved
deriving DecidableEq, Repr

/-- `apc_mini_mk2.Event` (src/apc_mini_mk2.py:329-333). -/
structure ApcEvent where
  ty : EventType
  ctrl_id : ControlID
  pos : Option Int := none
deriving DecidableEq, Repr

/-- `apc_mini_mk2.Device` state (src/apc_mini_mk2.py:339-359): the two
Python ports are modelled by flags (open or `None`), the two dicts by
functions to `Option` (a missing key raises `KeyError`). -/
structure Device where
  inport : Bool
  outport : Bool
  input_state_by_id : ControlID → Option InputState
  led_state_by_id : ControlID → Option LedState

/-- `Device.__init__` (src/apc_mini_mk2.py:340-359): ports unset; button
input state and default pad LED state for every pad, button input state for
track/scene/shift buttons, button LED state for track/scene buttons (not
shift), fader input state for the 9 faders. -/
def Device.init : Device where
  inport := false
  outport := false
  input_state_by_id := fun c =>
    if (c.ty = ControlType.pad ∧ 0 ≤ c.col ∧ c.col < 8 ∧ 0 ≤ c.row ∧ c.row < 8) ∨
       (c.ty = ControlType.trackButton ∧ 0 ≤ c.col ∧ c.col < 8 ∧ c.row = 0) ∨
       (c.ty = ControlType.sceneButton ∧ c.col = 0 ∧ 0 ≤ c.row ∧ c.row < 8) ∨
       (c.ty = ControlType.shiftButton ∧ c.col = 0 ∧ c.row = 0) then
      some (.button false false)
    else if c.ty = ControlType.fader ∧ 0 ≤ c.col ∧ c.col < 9 ∧ c.row = 0 then
      some (.fader 0)
    else none
  led_state_by_id := fun c =>
    if c.ty = ControlType.pad ∧ 0 ≤ c.col ∧ c.col < 8 ∧ 0 ≤ c.row ∧ c.row < 8 then
      some (.pad 6 0 0 0)
    else if (c.ty = ControlType.trackButton ∧ 0 ≤ c.col ∧ c.col < 8 ∧ c.row = 0) ∨
            (c.ty = ControlType.sceneButton ∧ c.col = 0 ∧ 0 ≤ c.row ∧ c.row < 8) then
      some (.btn 0)
    else none

/-- `Device.get_input_state` (src/apc_mini_mk2.py:513-514); `.copy()` is
the identity under value semantics. -/
def Device.get_input_state (d : Device) (c : ControlID) : Except PyErr InputState :=
  match d.input_state_by_id c with
  | some s => .ok s
  | none => .error .keyError

/-- `Device.get_led_state` (src/apc_mini_mk2.py:516-517). -/
def Device.get_led_state (d : Device) (c : ControlID) : Except PyErr LedState :=
  match d.led_state_by_id c with
  | some s => .ok s
  | none => .error .keyError

/-- Pointwise dict update `d.led_state_by_id[c] = s` (Python dict
assignment inserts or overwrites exactly the one key). -/
def Device.setLedEntry (d : Device) (c : ControlID) (s : LedState) : Device :=
  { d with led_state_by_id := fun x => if x = c then some s else d.led_state_by_id x }

/-- Pointwise dict update on `input_state_by_id` (object mutation through
the reference obtained from the dict). -/
def Device.setInputEntry (d : Device) (c : ControlID) (s : InputState) : Device :=
  { d with input_state_by_id := fun x => if x = c then some s else d.input_state_by_id x }

/-- `Device._send_pad_led_state_by_note_on` (src/apc_mini_mk2.py:531-543):
reads `.r/.g/.b` (an `AttributeError` if a `ButtonLedState` was stored for
a pad), quantizes to a palette index (a `None` index would make `mido`
reject the velocity), builds the note-on with the behavior as channel, and
sends it (an `AttributeError` if `outport` is `None`). -/
def Device.send_pad_led_state_by_note_on (d : Device) (note : Int) (led_state : LedState) :
    Except PyErr MidiMsg :=
  match led_state with
  | .btn _ => .error .attributeError
  | .pad behavior r g b =>
    match rgb_to_pad_palette_index r g b with
    | none => .error .valueError
    | some pal_idx =>
        if d.outport then .ok (.note_on behavior note pal_idx)
        else .error .attributeError

/-- `Device._send_btn_led_state_by_note_on` (src/apc_mini_mk2.py:545-551):
note-on on the default channel with the behavior code as velocity
(`int(led_state.behavior)` works for either stored state type). -/
def Device.send_btn_led_state_by_note_on (d : Device) (note : Int) (led_state : LedState) :
    Except PyErr MidiMsg :=
  let behavior := match led_state with | .pad b _ _ _ => b | .btn b => b
  if d.outport then .ok (.note_on 0 note behavior)
  else .error .attributeError

/-- One `cur_state = self.led_state_by_id[ctrl_id]` read of the sysex loop
(src/apc_mini_mk2.py:572-574) plus the `.r/.g/.b` accesses made on it:
`KeyError` for a missing key, `AttributeError` if the stored state is a
`ButtonLedState`. -/
def Device.padColorAt (d : Device) (note : Nat) : Except PyErr Rgb :=
  match ControlID.from_midi_note (note : Int) with
  | .error e => .error e
  | .ok cid =>
    match d.led_state_by_id cid with
    | none => .error .keyError
    | some (.btn _) => .error .attributeError
    | some (.pad _ r g b) => .ok (r, g, b)

/-- The colors scanned by the `for note in range(note_start,
note_start+note_count)` loop of `_send_pad_colors_by_sysex`. -/
def Device.collectPadColors (d : Device) : Nat → Nat → Except PyErr (List Rgb)
  | _, 0 => .ok []
  | note, n + 1 => do
    let c ← d.padColorAt note
    let rest ← d.collectPadColors (note + 1) n
    pure (c :: rest)

/-- `Device._send_pad_colors_by_sysex` (src/apc_mini_mk2.py:553-595): RLE
the scanned colors into runs, flatten each run to bytes, wrap in the
`0x24` SysEx message and send it.  Real controls always have nonnegative
note numbers, so note numbers are `Nat` here. -/
def Device.send_pad_colors_by_sysex (d : Device) (note_start : Nat := 0)
    (note_count : Nat := PAD_COUNT) : Except PyErr MidiMsg := do
  let colors ← d.collectPadColors note_start note_count
  let data := (padColorRuns note_start colors).flatMap padRunData
  if d.outport then pure (MakeSysExMessage 0x24 data)
  else throw .attributeError

/-- `Device.set_led_state` (src/apc_mini_mk2.py:519-529): update the shadow
map first, then send the device messages; exceptions from the sends leave
the already-updated state behind, so the post-state is returned alongside
the send result. -/
def Device.set_led_state (d : Device) (ctrl_id : ControlID) (led_state : LedState) :
    Device × Except PyErr (List MidiMsg) :=
  let d2 := d.setLedEntry ctrl_id led_state
  let sends : Except PyErr (List MidiMsg) := do
    let note ← ctrl_id.to_midi_note
    if ctrl_id.is_pad then do
      let m1 ← d2.send_pad_led_state_by_note_on note led_state
      let m2 ← d2.send_pad_colors_by_sysex note.toNat 1
      pure [m1, m2]
    else if ctrl_id.is_button then do
      let m1 ← d2.send_btn_led_state_by_note_on note led_state
      pure [m1]
    else
      pure []
  (d2, sends)

/-- The fader-initialization loop run on an introduction-ack SysEx
(src/apc_mini_mk2.py:494-500): `for i in range(FADER_COUNT)` reads
`msg.data[i+6]` into fader `i`. -/
def Device.faderInitLoop (d : Device) (data : List Nat) (i : Nat) :
    Device × List ApcEvent × Option PyErr :=
  if i < 9 then
    match d.input_state_by_id ⟨.fader, (i : Int), 0⟩ with
    | none => (d, [], some .keyError)
    | some _ =>
      match data[i + 6]? with
      | none => (d, [], some .indexError)
      | some v => Device.faderInitLoop (d.setInputEntry ⟨.fader, (i : Int), 0⟩ (.fader v)) data (i + 1)
  else (d, [], none)
termination_by 9 - i

/-- One incoming message step of the `while True` drain loop in
`Device.tick` (src/apc_mini_mk2.py:470-511).  Exceptions abort the loop
with the state mutated so far; unhandled messages only print a warning.
For the note handlers the dict entry at a valid note id is always a
`ButtonInputState`, so only button states are written. -/
def Device.processMsg (d : Device) (m : MidiInMsg) : Device × List ApcEvent × Option PyErr :=
  match m with
  | .note_on note =>
    (match ControlID.from_midi_note note with
     | .error e => (d, [], some e)
     | .ok cid =>
       match d.input_state_by_id cid with
       | none => (d, [], some .keyError)
       | some (.button _ w) =>
           (d.setInputEntry cid (.button true w), [⟨.pressed, cid, none⟩], none)
       | some (.fader p) =>
           (d.setInputEntry cid (.fader p), [⟨.pressed, cid, none⟩], none))
  | .note_off note =>
    (match ControlID.from_midi_note note with
     | .error e => (d, [], some e)
     | .ok cid =>
       match d.input_state_by_id cid with
       | none => (d, [], some .keyError)
       | some (.button _ w) =>
           (d.setInputEntry cid (.button false w), [⟨.released, cid, none⟩], none)
       | some (.fader p) =>
           (d.setInputEntry cid (.fader p), [⟨.released, cid, none⟩], none))
  | .sysex data =>
    (match data[3]? with
     | none => (d, [], some .indexError)
     | some t =>
       if t = 0x61 then Device.faderInitLoop d data 0
       else (d, [], none))
  | .control_change control value =>
    (match ControlID.from_midi_control control with
     | .error e => (d, [], some e)
     | .ok cid =>
       match d.input_state_by_id cid with
       | none => (d, [], some .keyError)
       | some _ =>
           (d.setInputEntry cid (.fader value), [⟨.moved, cid, some value⟩], none))
  | .other => (d, [], none)
/-- The message-drain fold of `Device.tick`: events accumulate across
messages; an exception stops the drain. -/
def Device.processAll (d : Device) : List MidiInMsg → Device × List ApcEvent × Option PyErr
  | [] => (d, [], none)
  | m :: rest =>
    match d.processMsg m with
    | (d2, evs, some e) => (d2, evs, some e)
    | (d2, evs, none) =>
      let (d3, evs2, err) := d2.processAll rest
      (d3, evs ++ evs2, err)

/-- `Device.tick` (src/apc_mini_mk2.py:461-511): with no input port the
generator returns immediately (no events, no state change); otherwise the
previous input states are rolled and the pending messages drained. -/
def Device.tick (d : Device) (incoming : List MidiInMsg) :
    Device × List ApcEvent × Option PyErr :=
  if d.inport then
    let d2 := { d with input_state_by_id := fun c => (d.input_state_by_id c).map .updatePrev }
    d2.processAll incoming
  else (d, [], none)

/-- `name.startswith("APC mini mk2")` (src/apc_mini_mk2.py:387,406). -/
def matchesApcName (name : String) : Bool := String.isPrefixOf "APC mini mk2" name

/-- The port-scanning loops of `Device.connect`
(src/apc_mini_mk2.py:384-417): every advertised name is inspected in order
and each match overwrites the chosen name, so the last match wins; no
match leaves the port `None`. -/
def findApcPortName (names : List String) : Option String :=
  names.foldl (fun acc n => if matchesApcName n then some n else acc) none

/-- `led_state_by_id` insertion order for the LED-init loop of `connect`
(src/apc_mini_mk2.py:430-443): pads in note order 0..63 (rows outer,
columns inner), then track buttons 0..7, then scene buttons 0..7; the
shift button has no LED entry. -/
def ledInitIds : List ControlID :=
  ((List.range 64).map fun n => ⟨.pad, (n % 8 : Nat), (n / 8 : Nat)⟩) ++
  ((List.range 8).map fun c => ⟨.trackButton, (c : Nat), 0⟩) ++
  ((List.range 8).map fun r => ⟨.sceneButton, 0, (r : Nat)⟩)

/-- The per-entry body of the LED-init loop (src/apc_mini_mk2.py:432-442):
pads go through the pad note-on sender, buttons through the button sender,
anything else only prints an error. -/
def Device.ledInitSends (d : Device) : List ControlID → Except PyErr (List MidiMsg)
  | [] => .ok []
  | cid :: rest => do
    match d.led_state_by_id cid with
    | none => throw .keyError
    | some led_state =>
      if cid.is_pad then do
        let note ← cid.to_midi_note
        let m ← d.send_pad_led_state_by_note_on note led_state
        let ms ← d.ledInitSends rest
        pure (m :: ms)
      else if cid.is_button then do
        let note ← cid.to_midi_note
        let m ← d.send_btn_led_state_by_note_on note led_state
        let ms ← d.ledInitSends rest
        pure (m :: ms)
      else
        d.ledInitSends rest

/-- `Device.connect` (src/apc_mini_mk2.py:377-450).  `in_names` /
`out_names` are the values of `mido.get_input_names()` /
`mido.get_output_names()`.  A port with no matching name is left `None`,
after which `self.outport.send(msg)` for the introduction message raises
`AttributeError` (`None` has no `send`); on the happy path the LED states
and the bulk pad-color sync are sent (the trailing `time.sleep` does not
affect state).  The post-state is returned alongside the send result. -/
def Device.connect (d : Device) (in_names out_names : List String) :
    Device × Except PyErr (List MidiMsg) :=
  let d2 := { d with
    inport := (findApcPortName in_names).isSome,
    outport := (findApcPortName out_names).isSome }
  let sends : Except PyErr (List MidiMsg) := do
    if d2.outport then do
      let intro := MakeSysExMessage 0x60 []
      let ledMsgs ← d2.ledInitSends ledInitIds
      let allPads ← d2.send_pad_colors_by_sysex 0 PAD_COUNT
      pure (intro :: ledMsgs ++ [allPads])
    else
      throw .attributeError
  (d2, sends)

/-- `Device.disconnect` (src/apc_mini_mk2.py:452-459). -/
def Device.disconnect (d : Device) : Device :=
  { d with inport := false, outport := false }

/-! ## Concrete scenarios used by the claim theorems -/

/-- Four taps at 0.05 s intervals from a fresh metronome, ticking between
taps; the fourth tap fills the queue. -/
def tapScenario : Except PyErr Metronome := do
  let m1 ← ((Metronome.init 0).tick (1/20)).on_tap
  let m2 ← (m1.tick (2/20)).on_tap
  let m3 ← (m2.tick (3/20)).on_tap
  (m3.tick (4/20)).on_tap

/-- Four taps with no intervening tick: all four queue entries carry the
same `now_secs` clock reading. -/
def sameInstantTaps : Except PyErr Metronome := do
  let m1 ← (Metronome.init 0).on_tap
  let m2 ← m1.on_tap
  let m3 ← m2.on_tap
  m3.on_tap

/-- First half of the beat event of claim C7, cut mid-object. -/
def beatFramePart1 : List Char := ("\x7b\"evt\":\"beat\",\"change\":true,\"pos\":4,").data

/-- Second half of the beat event of claim C7. -/
def beatFramePart2 : List Char := ("\"bpm\":128,\"strength\":1\x7d").data

/-! # Theorems

Helper lemmas first, then one theorem per claim (with witnesses and
counterexamples where required). -/

/-! ## Quantizer: the scan keeps the lowest-index minimizer -/

/-- Loop invariant for the quantizer scan: processing the remaining colors
`cs` after having scanned `done` either never found a distance below the
`0xFFFFFFFF` sentinel, or returns the lowest index of minimal distance. -/
theorem quantAux_go (r g b : Int) (cs : List Nat) :
    ∀ (done : List Nat) (best : Option Nat) (bd : Int),
      ((best = none ∧ bd = 0xFFFFFFFF ∧
          ∀ j < done.length, bd ≤ distSq r g b (done.getD j 0)) ∨
       (∃ m, best = some m ∧ m < done.length ∧
          bd = distSq r g b (done.getD m 0) ∧
          (∀ j < m, bd < distSq r g b (done.getD j 0)) ∧
          (∀ j < done.length, bd ≤ distSq r g b (done.getD j 0)))) →
      ((quantAux r g b done.length cs best bd = none ∧
          ∀ j < (done ++ cs).length,
            (0xFFFFFFFF : Int) ≤ distSq r g b ((done ++ cs).getD j 0)) ∨
       (∃ m, quantAux r g b done.length cs best bd = some m ∧ m < (done ++ cs).length ∧
          (∀ j < m,
             distSq r g b ((done ++ cs).getD m 0) < distSq r g b ((done ++ cs).getD j 0)) ∧
          (∀ j < (done ++ cs).length,
             distSq r g b ((done ++ cs).getD m 0) ≤ distSq r g b ((done ++ cs).getD j 0)))) := by
  induction cs with
  | nil =>
    intro done best bd hinv
    simp only [List.append_nil, quantAux]
    rcases hinv with ⟨hb, hbd, hall⟩ | ⟨m, hb, hm, hbd, hltm, hall⟩
    · exact Or.inl ⟨hb, fun j hj => hbd ▸ hall j hj⟩
    · exact Or.inr ⟨m, hb, hm, fun j hj => hbd ▸ hltm j hj, fun j hj => hbd ▸ hall j hj⟩
  | cons c cs ih =>
    intro done best bd hinv
    have hgo : quantAux r g b done.length (c :: cs) best bd =
        if distSq r g b c < bd then
          quantAux r g b (done.length + 1) cs (some done.length) (distSq r g b c)
        else quantAux r g b (done.length + 1) cs best bd := rfl
    have hlen : (done ++ [c]).length = done.length + 1 := by simp
    have hgetc : (done ++ [c]).getD done.length 0 = c := by
      rw [List.getD_append_right _ _ _ _ (le_refl _)]
      simp
    have hgetlt : ∀ j, j < done.length → (done ++ [c]).getD j 0 = done.getD j 0 :=
      fun j hj => List.getD_append _ _ _ _ hj
    have hassoc : done ++ c :: cs = (done ++ [c]) ++ cs := by simp
    have hall' : ∀ j, j < done.length → bd ≤ distSq r g b (done.getD j 0) := by
      rcases hinv with ⟨_, _, hall⟩ | ⟨m, _, _, _, _, hall⟩ <;> exact hall
    rw [hassoc, hgo]
    by_cases hd : distSq r g b c < bd
    · rw [if_pos hd, show done.length + 1 = (done ++ [c]).length from hlen.symm]
      refine ih (done ++ [c]) (some done.length) (distSq r g b c)
        (Or.inr ⟨done.length, rfl, by simp, by rw [hgetc], ?_, ?_⟩)
      · intro j hj
        rw [hgetlt j hj]
        exact lt_of_lt_of_le hd (hall' j hj)
      · intro j hj
        rcases Nat.lt_or_ge j done.length with hj' | hj'
        · rw [hgetlt j hj']
          exact le_of_lt (lt_of_lt_of_le hd (hall' j hj'))
        · have hje : j = done.length := by
            rw [hlen] at hj
            omega
          rw [hje, hgetc]
    · rw [if_neg hd, show done.length + 1 = (done ++ [c]).length from hlen.symm]
      have hdle : bd ≤ distSq r g b c := not_lt.mp hd
      rcases hinv with ⟨hb, hbd, hall⟩ | ⟨m, hb, hm, hbd, hltm, hall⟩
      · refine ih (done ++ [c]) best bd (Or.inl ⟨hb, hbd, ?_⟩)
        intro j hj
        rcases Nat.lt_or_ge j done.length with hj' | hj'
        · rw [hgetlt j hj']
          exact hall j hj'
        · have : j = done.length := by
            rw [hlen] at hj
            omega
          rw [this, hgetc]
          exact hdle
      · refine ih (done ++ [c]) best bd (Or.inr ⟨m, hb, ?_, ?_, ?_, ?_⟩)
        · rw [hlen]
          omega
        · rw [hgetlt m hm]
          exact hbd
        · intro j hj
          rw [hgetlt j (lt_trans hj hm)]
          exact hltm j hj
        · intro j hj
          rcases Nat.lt_or_ge j done.length with hj' | hj'
          · rw [hgetlt j hj']
            exact hall j hj'
          · have : j = done.length := by
              rw [hlen] at hj
              omega
            rw [this, hgetc]
            exact hdle

theorem rgb_quant_spec (r g b : Int) :
    (rgb_to_pad_palette_index r g b = none ∧
       ∀ j < 128, (0xFFFFFFFF : Int) ≤ distSq r g b (PadColorPalette.getD j 0)) ∨
    (∃ m, rgb_to_pad_palette_index r g b = some m ∧ m < 128 ∧
       (∀ j < m,
          distSq r g b (PadColorPalette.getD m 0) < distSq r g b (PadColorPalette.getD j 0)) ∧
       (∀ j < 128,
          distSq r g b (PadColorPalette.getD m 0) ≤ distSq r g b (PadColorPalette.getD j 0))) := by
  have hl : PadColorPalette.length = 128 := rfl
  have h := quantAux_go r g b PadColorPalette [] none 0xFFFFFFFF
    (Or.inl ⟨rfl, rfl, by simp⟩)
  simpa [rgb_to_pad_palette_index, hl] using h

theorem distSq_nonneg (r g b : Int) (c : Nat) : 0 ≤ distSq r g b c := by
  unfold distSq
  nlinarith [mul_self_nonneg (r - colorR c), mul_self_nonneg (g - colorG c),
    mul_self_nonneg (b - colorB c)]

theorem distSq_eq_zero (r g b : Int) (c : Nat) (h : distSq r g b c = 0) :
    colorR c = r ∧ colorG c = g ∧ colorB c = b := by
  unfold distSq at h
  refine ⟨?_, ?_, ?_⟩ <;>
    nlinarith [mul_self_nonneg (r - colorR c), mul_self_nonneg (g - colorG c),
      mul_self_nonneg (b - colorB c)]

/-- C9: for every integer r, g, b each in [0, 255] the nearest-palette
search returns some index in [0, 128) and never its `None` sentinel: the
distance to palette entry 0 is at most 3 * 255^2, strictly below the
initial best-distance sentinel 0xFFFFFFFF, so a best index is always
assigned. -/
theorem quantizer_total_for_bytes (r g b : Int)
    (hr0 : 0 ≤ r) (hr1 : r ≤ 255) (hg0 : 0 ≤ g) (hg1 : g ≤ 255)
    (hb0 : 0 ≤ b) (hb1 : b ≤ 255) :
    ∃ i, rgb_to_pad_palette_index r g b = some i ∧ i < 128 := by
  rcases rgb_quant_spec r g b with ⟨_, hall⟩ | ⟨m, hm, hlt, _, _⟩
  · exfalso
    have h0 := hall 0 (by norm_num)
    have hc : PadColorPalette.getD 0 0 = 0 := rfl
    rw [hc] at h0
    have hd : distSq r g b 0 = r * r + g * g + b * b := by
      simp [distSq, colorR, colorG, colorB]
    rw [hd] at h0
    nlinarith
  · exact ⟨m, hm, hlt⟩

/-- Witness for C9 at the in-range input (10, 20, 30). -/
theorem quantizer_total_for_bytes_witness :
    ∃ i, rgb_to_pad_palette_index 10 20 30 = some i ∧ i < 128 :=
  quantizer_total_for_bytes 10 20 30 (by norm_num) (by norm_num) (by norm_num)
    (by norm_num) (by norm_num) (by norm_num)

/-- C5 (amended): the quantizer returns the lowest index among the
palette entries minimizing the squared RGB distance — ties resolve to the
lowest index because a strict less-than comparison is used — and hence
quantizing the exact RGB of palette entry k returns k whenever k is the
first palette occurrence of that RGB triple.  (The unamended claim — that
this holds for every k — fails because the palette contains duplicate
colors; see the counterexample.) -/
theorem quantizer_lowest_index_spec :
    (∀ r g b m, rgb_to_pad_palette_index r g b = some m →
       m < 128 ∧
       (∀ j < 128,
          distSq r g b (PadColorPalette.getD m 0) ≤ distSq r g b (PadColorPalette.getD j 0)) ∧
       (∀ j < m,
          distSq r g b (PadColorPalette.getD m 0) < distSq r g b (PadColorPalette.getD j 0))) ∧
    (∀ k, k < 128 →
       (∀ j < k,
          (colorR (PadColorPalette.getD j 0), colorG (PadColorPalette.getD j 0),
           colorB (PadColorPalette.getD j 0)) ≠
          (colorR (PadColorPalette.getD k 0), colorG (PadColorPalette.getD k 0),
           colorB (PadColorPalette.getD k 0))) →
       rgb_to_pad_palette_index (colorR (PadColorPalette.getD k 0))
         (colorG (PadColorPalette.getD k 0)) (colorB (PadColorPalette.getD k 0)) = some k) := by
  constructor
  · intro r g b m hm
    rcases rgb_quant_spec r g b with ⟨hnone, _⟩ | ⟨m', heq, hm128, hltj, hlej⟩
    · rw [hnone] at hm
      exact absurd hm (by simp)
    · rw [heq] at hm
      injection hm with hmm
      subst hmm
      exact ⟨hm128, hlej, hltj⟩
  · intro k hk hfirst
    have hzero : distSq (colorR (PadColorPalette.getD k 0)) (colorG (PadColorPalette.getD k 0))
        (colorB (PadColorPalette.getD k 0)) (PadColorPalette.getD k 0) = 0 := by
      simp [distSq, sub_self]
    rcases rgb_quant_spec (colorR (PadColorPalette.getD k 0)) (colorG (PadColorPalette.getD k 0))
        (colorB (PadColorPalette.getD k 0)) with ⟨_, hall⟩ | ⟨m, heq, hm128, hlt, hle⟩
    · exfalso
      have := hall k hk
      rw [hzero] at this
      norm_num at this
    · have hmz : distSq (colorR (PadColorPalette.getD k 0)) (colorG (PadColorPalette.getD k 0))
          (colorB (PadColorPalette.getD k 0)) (PadColorPalette.getD m 0) = 0 := by
        have h1 := hle k hk
        rw [hzero] at h1
        exact le_antisymm h1 (distSq_nonneg _ _ _ _)
      rcases distSq_eq_zero _ _ _ _ hmz with ⟨h1, h2, h3⟩
      rcases lt_trichotomy m k with hmk | hmk | hmk
      · exact absurd (by rw [h1, h2, h3]) (hfirst m hmk)
      · rw [hmk] at heq
        exact heq
      · exfalso
        have := hlt k hmk
        rw [hmz, hzero] at this
        exact lt_irrefl 0 this

/-- Witness for C5: palette entry 5 (0xff0000) is the first occurrence of
its RGB, and quantizing it returns 5. -/
theorem quantizer_lowest_index_spec_witness :
    rgb_to_pad_palette_index (colorR (PadColorPalette.getD 5 0))
      (colorG (PadColorPalette.getD 5 0)) (colorB (PadColorPalette.getD 5 0)) = some 5 :=
  quantizer_lowest_index_spec.2 5 (by norm_num) (by decide)

/-- C5 counterexample: palette entry 70 is 0x7f7f7f, but quantizing the
exact RGB (127, 127, 127) of entry 70 returns index 2 (the first palette
occurrence of 0x7f7f7f), not 70. -/
theorem quantizer_self_quantize_cex :
    PadColorPalette.getD 70 0 = 0x7f7f7f ∧
    rgb_to_pad_palette_index (colorR 0x7f7f7f) (colorG 0x7f7f7f) (colorB 0x7f7f7f) = some 2 ∧
    (2 : Nat) ≠ 70 := ⟨rfl, rfl, by decide⟩

/-! ## Pad-color RLE: losslessness and canonicity -/

theorem decodeRuns_append (a b : List PadRun) :
    decodeRuns (a ++ b) = decodeRuns a ++ decodeRuns b := by
  simp [decodeRuns]

theorem padRunsAux_decode (cs : List Rgb) :
    ∀ (note : Nat) (run : Option PadRun) (acc : List PadRun),
      (∀ rn, run = some rn → rn.run_start ≤ rn.run_end ∧ rn.run_end + 1 = note) →
      decodeRuns (padRunsAux note cs run acc) =
        decodeRuns acc ++ decodeRuns run.toList ++ cs := by
  induction cs with
  | nil =>
    intro note run acc _
    simp [padRunsAux, decodeRuns_append]
  | cons c cs ih =>
    intro note run acc hrun
    match run with
    | none =>
      simp only [padRunsAux]
      rw [ih (note + 1) (some ⟨note, note, c⟩) acc ?_]
      · simp [decodeRuns]
      · intro rn h
        injection h with h
        subst h
        exact ⟨le_refl _, rfl⟩
    | some rn =>
      obtain ⟨hse, hen⟩ := hrun rn rfl
      simp only [padRunsAux]
      by_cases hc : rn.color = c
      · rw [if_pos hc, ih (note + 1) (some { rn with run_end := note }) acc ?_]
        · have hcount : note + 1 - rn.run_start = (rn.run_end + 1 - rn.run_start) + 1 := by
            omega
          simp [decodeRuns, hcount, List.replicate_succ', hc]
        · intro rn' h'
          injection h' with h'
          subst h'
          exact ⟨show rn.run_start ≤ note by omega, rfl⟩
      · rw [if_neg hc, ih (note + 1) (some ⟨note, note, c⟩) (acc ++ [rn]) ?_]
        · simp [decodeRuns_append, decodeRuns]
        · intro rn' h'
          injection h' with h'
          subst h'
          exact ⟨le_refl _, rfl⟩

theorem padColorRuns_decode (colors : List Rgb) (note_start : Nat) :
    decodeRuns (padColorRuns note_start colors) = colors := by
  have h := padRunsAux_decode colors note_start none [] (by intro rn h; cases h)
  simpa [padColorRuns, decodeRuns] using h

theorem padRunsAux_chain (cs : List Rgb) :
    ∀ (note : Nat) (run : Option PadRun) (acc : List PadRun),
      List.Chain' (fun a b : PadRun => a.color ≠ b.color) (acc ++ run.toList) →
      (run = none → acc = []) →
      List.Chain' (fun a b : PadRun => a.color ≠ b.color) (padRunsAux note cs run acc) := by
  induction cs with
  | nil =>
    intro note run acc h _
    simpa [padRunsAux] using h
  | cons c cs ih =>
    intro note run acc h hnone
    match run with
    | none =>
      have hacc : acc = [] := hnone rfl
      subst hacc
      simp only [padRunsAux]
      exact ih (note + 1) (some ⟨note, note, c⟩) [] (by simp) (by simp)
    | some rn =>
      simp only [padRunsAux]
      by_cases hc : rn.color = c
      · rw [if_pos hc]
        refine ih (note + 1) (some { rn with run_end := note }) acc ?_ (by simp)
        simp only [Option.toList_some] at h ⊢
        rw [List.chain'_append] at h ⊢
        obtain ⟨h1, _, h3⟩ := h
        refine ⟨h1, List.chain'_singleton _, ?_⟩
        intro x hx y hy
        simp only [List.head?_cons, Option.mem_def, Option.some.injEq] at hy
        subst hy
        show x.color ≠ rn.color
        exact h3 x hx rn (by simp)
      · rw [if_neg hc]
        refine ih (note + 1) (some ⟨note, note, c⟩) (acc ++ [rn]) ?_ (by simp)
        simp only [Option.toList_some] at h ⊢
        rw [List.chain'_append]
        refine ⟨h, List.chain'_singleton _, ?_⟩
        intro x hx y hy
        simp only [List.head?_cons, Option.mem_def, Option.some.injEq] at hy
        subst hy
        simp only [List.getLast?_concat, Option.mem_def, Option.some.injEq] at hx
        subst hx
        exact hc

theorem padRunsAux_const (n : Nat) :
    ∀ (note : Nat) (rn : PadRun), rn.run_end + 1 = note →
      padRunsAux note (List.replicate n rn.color) (some rn) [] =
        [⟨rn.run_start, rn.run_end + n, rn.color⟩] := by
  induction n with
  | zero =>
    intro note rn _
    simp only [List.replicate_zero, padRunsAux, Option.toList_some, List.nil_append]
    cases rn
    simp
  | succ n ih =>
    intro note rn hen
    simp only [List.replicate_succ, padRunsAux, if_pos rfl]
    rw [ih (note + 1) { rn with run_end := note } rfl]
    have hcount : rn.run_end + (n + 1) = note + n := by omega
    simp [hcount]

theorem padColorRuns_const (c : Rgb) :
    padColorRuns 0 (List.replicate 64 c) = [⟨0, 63, c⟩] := by
  exact padRunsAux_const 63 1 ⟨0, 0, c⟩ rfl

/-- C6: the bulk pad-color run-length encoding is lossless and canonical:
decoding the produced run list reconstructs the original 64-triple
sequence exactly; adjacent runs always carry different colors (consecutive
equal-color pads are merged and a new run begins exactly when the color
changes); and a constant-color sequence produces exactly the single run
covering notes 0 through 63. -/
theorem pad_color_rle_spec (colors : List Rgb) (_hlen : colors.length = 64) :
    decodeRuns (padColorRuns 0 colors) = colors ∧
    List.Chain' (fun a b : PadRun => a.color ≠ b.color) (padColorRuns 0 colors) ∧
    (∀ c : Rgb, colors = List.replicate 64 c → padColorRuns 0 colors = [⟨0, 63, c⟩]) := by
  refine ⟨padColorRuns_decode colors 0, ?_, ?_⟩
  · exact padRunsAux_chain colors 0 none [] (by simp) (by simp)
  · intro c hc
    rw [hc]
    exact padColorRuns_const c

/-- Witness for C6 at the constant all-black 64-pad sequence. -/
theorem pad_color_rle_spec_witness :
    decodeRuns (padColorRuns 0 (List.replicate 64 ((0, 0, 0) : Rgb))) =
      List.replicate 64 ((0, 0, 0) : Rgb) ∧
    padColorRuns 0 (List.replicate 64 ((0, 0, 0) : Rgb)) = [⟨0, 63, (0, 0, 0)⟩] := by
  have h := pad_color_rle_spec (List.replicate 64 ((0, 0, 0) : Rgb)) (by simp)
  exact ⟨h.1, h.2.2 _ rfl⟩

/-! ## Metronome claims -/

/-- C3 (amended): when a tap fills the tap queue to 4 entries (and the
first and last tap instants differ, so the division succeeds), the tempo is
set to (N-1)/(last - first) and the position is resynced to the *current
fractional position itself* when its fractional part is ≤ 0.25, else to the
current position plus one full beat; the sync wall time becomes the tap
instant.  (The unamended claim said the position snaps to the current /
next *integer* beat; the code keeps the fractional part — see the
counterexample.) -/
theorem metronome_tap_fill_resync (m : Metronome)
    (hlen : 4 ≤ m.updatedTapQueue.length)
    (hne : m.updatedTapQueue.getLast?.getD 0 ≠ m.updatedTapQueue.head?.getD 0) :
    m.on_tap = .ok { m with
      tap_queue := m.updatedTapQueue,
      beats_per_sec := ((m.updatedTapQueue.length : ℚ) - 1) /
        (m.updatedTapQueue.getLast?.getD 0 - m.updatedTapQueue.head?.getD 0),
      sync_pos := if pymod m.now_pos 1 ≤ 1/4 then m.now_pos else m.now_pos + 1,
      sync_secs := m.now_secs } := by
  simp only [Metronome.on_tap]
  rw [if_pos hlen, if_neg (sub_ne_zero_of_ne hne)]

/-- Witness for C3: a queue [0, 1/4, 1/2] tapped again at 3/4 with
position 1/10 fills to 4 entries and resyncs to tempo 4 beats/s at
position 1/10. -/
theorem metronome_tap_fill_resync_witness :
    (⟨1, 0, 0, 0, 1/10, 3/4, 0, [0, 1/4, 1/2]⟩ : Metronome).on_tap =
      .ok ⟨4, 1/10, 3/4, 0, 1/10, 3/4, 0, [0, 1/4, 1/2, 3/4]⟩ := by
  have hq : (⟨1, 0, 0, 0, 1/10, 3/4, 0, [0, 1/4, 1/2]⟩ : Metronome).updatedTapQueue =
      [0, 1/4, 1/2, 3/4] := by
    norm_num [Metronome.updatedTapQueue]
  rw [metronome_tap_fill_resync _ (by rw [hq]; norm_num) (by rw [hq]; norm_num)]
  rw [hq]
  norm_num [pymod]

/-- C4 (amended): `on_tap` raises — always a `ZeroDivisionError` — exactly
when the post-append tap queue is full (≥ 4 entries) and its first and last
instants coincide; a full queue does *not* guarantee distinct instants
(four taps within one tick share one `now_secs` reading), so the component
is not failure-free as the unamended claim stated.  `tick`, `sync_beats`
and `on_one` are total, and `on_tap` raises nothing else. -/
theorem metronome_on_tap_raises_iff (m : Metronome) (e : PyErr) :
    m.on_tap = .error e ↔
      (e = .zeroDivisionError ∧ 4 ≤ m.updatedTapQueue.length ∧
       m.updatedTapQueue.getLast?.getD 0 = m.updatedTapQueue.head?.getD 0) := by
  simp only [Metronome.on_tap]
  split_ifs with h1 h2
  · constructor
    · intro he
      injection he with he
      exact ⟨he.symm, h1, sub_eq_zero.mp h2⟩
    · rintro ⟨he, -, -⟩
      rw [he]
  · constructor
    · intro he
      simp at he
    · rintro ⟨-, -, heq⟩
      exact absurd (sub_eq_zero.mpr heq) h2
  · constructor
    · intro he
      simp at he
    · rintro ⟨-, hlen, -⟩
      exact absurd hlen h1

/-- C4 counterexample: four `on_tap` calls with no intervening `tick`
(all at clock reading 0) fill the queue with four equal instants and the
tempo division raises `ZeroDivisionError`, refuting "no operation
raises". -/
theorem metronome_same_instant_taps_raise :
    sameInstantTaps = .error .zeroDivisionError := by
  have h1 : (Metronome.init 0).on_tap = .ok ⟨1, 0, 0, 0, 0, 0, 0, [0]⟩ := by
    norm_num [Metronome.on_tap, Metronome.updatedTapQueue, Metronome.init]
  have h2 : (⟨1, 0, 0, 0, 0, 0, 0, [0]⟩ : Metronome).on_tap =
      .ok ⟨1, 0, 0, 0, 0, 0, 0, [0, 0]⟩ := by
    norm_num [Metronome.on_tap, Metronome.updatedTapQueue]
  have h3 : (⟨1, 0, 0, 0, 0, 0, 0, [0, 0]⟩ : Metronome).on_tap =
      .ok ⟨1, 0, 0, 0, 0, 0, 0, [0, 0, 0]⟩ := by
    norm_num [Metronome.on_tap, Metronome.updatedTapQueue]
  have h4 : (⟨1, 0, 0, 0, 0, 0, 0, [0, 0, 0]⟩ : Metronome).on_tap =
      .error .zeroDivisionError := by
    norm_num [Metronome.on_tap, Metronome.updatedTapQueue]
  simp [sameInstantTaps, h1, h2, h3, h4, Bind.bind, Except.bind]

/-- C3 counterexample: four taps at 0.05 s intervals fill the queue with
the metronome position at 1/5.  The fractional position 1/5 is ≤ 0.25, yet
the resynced position is 1/5 itself — not the current integer beat
⌊1/5⌋ = 0 the claim requires. -/
theorem metronome_tap_no_snap_cex :
    tapScenario = .ok ⟨20, 1/5, 1/5, 3/20, 1/5, 1/5, 1/20, [1/20, 1/10, 3/20, 1/5]⟩ ∧
    pymod (1/5 : ℚ) 1 ≤ 1/4 ∧
    ((1 : ℚ)/5) ≠ ((⌊(1/5 : ℚ)⌋ : ℤ) : ℚ) := by
  have ht1 : ((Metronome.init 0).tick (1/20)).on_tap =
      .ok ⟨1, 0, 0, 0, 1/20, 1/20, 1/20, [1/20]⟩ := by
    norm_num [Metronome.init, Metronome.tick, Metronome.on_tap, Metronome.updatedTapQueue]
  have ht2 : ((⟨1, 0, 0, 0, 1/20, 1/20, 1/20, [1/20]⟩ : Metronome).tick (2/20)).on_tap =
      .ok ⟨1, 0, 0, 1/20, 1/10, 1/10, 1/20, [1/20, 1/10]⟩ := by
    norm_num [Metronome.tick, Metronome.on_tap, Metronome.updatedTapQueue]
  have ht3 : ((⟨1, 0, 0, 1/20, 1/10, 1/10, 1/20, [1/20, 1/10]⟩ : Metronome).tick (3/20)).on_tap =
      .ok ⟨1, 0, 0, 1/10, 3/20, 3/20, 1/20, [1/20, 1/10, 3/20]⟩ := by
    norm_num [Metronome.tick, Metronome.on_tap, Metronome.updatedTapQueue]
  have ht4 : ((⟨1, 0, 0, 1/10, 3/20, 3/20, 1/20, [1/20, 1/10, 3/20]⟩ : Metronome).tick
        (4/20)).on_tap =
      .ok ⟨20, 1/5, 1/5, 3/20, 1/5, 1/5, 1/20, [1/20, 1/10, 3/20, 1/5]⟩ := by
    norm_num [Metronome.tick, Metronome.on_tap, Metronome.updatedTapQueue, pymod]
  refine ⟨?_, by norm_num [pymod], by norm_num⟩
  simp only [tapScenario, Bind.bind, Except.bind, ht1, ht2, ht3, ht4]

/-- C8 (amended): for every metronome state and scale factor, the beat
phase t equals (scale * position) mod 1.0 and lies in [0, 1); the beat
count is the *truncation toward zero* of scale * position (Python `int()`),
which agrees with the floor whenever scale * position ≥ 0; and
`this_frame` is true exactly when the truncations of the scaled previous
and current positions differ.  (The unamended claim used floor throughout;
the code truncates — see the counterexample with a negative scale.) -/
theorem metronome_get_beat_info_spec (m : Metronome) (scaler : ℚ) :
    (m.get_beat_info scaler).t = Int.fract (scaler * m.now_pos) ∧
    0 ≤ (m.get_beat_info scaler).t ∧
    (m.get_beat_info scaler).t < 1 ∧
    (m.get_beat_info scaler).count = pytrunc (scaler * m.now_pos) ∧
    (0 ≤ scaler * m.now_pos → (m.get_beat_info scaler).count = ⌊scaler * m.now_pos⌋) ∧
    ((m.get_beat_info scaler).this_frame = true ↔
       pytrunc (scaler * m.prev_pos) ≠ pytrunc (scaler * m.now_pos)) := by
  have hfract : pymod (scaler * m.now_pos) 1 = Int.fract (scaler * m.now_pos) := by
    unfold pymod Int.fract
    rw [div_one, one_mul]
  refine ⟨?_, ?_, ?_, rfl, ?_, ?_⟩
  · exact hfract
  · rw [show (m.get_beat_info scaler).t = pymod (scaler * m.now_pos) 1 from rfl, hfract]
    exact Int.fract_nonneg _
  · rw [show (m.get_beat_info scaler).t = pymod (scaler * m.now_pos) 1 from rfl, hfract]
    exact Int.fract_lt_one _
  · intro hpos
    show pytrunc (scaler * m.now_pos) = ⌊scaler * m.now_pos⌋
    simp [pytrunc, hpos]
  · show (pytrunc (scaler * m.prev_pos) != pytrunc (scaler * m.now_pos)) = true ↔ _
    exact bne_iff_ne

/-- Witness for C8 at state position 2 and scale 3 (nonnegative product,
so count agrees with the floor). -/
theorem metronome_get_beat_info_spec_witness :
    (((Metronome.init 0).tick 2).get_beat_info 3).count =
      ⌊(3 : ℚ) * ((Metronome.init 0).tick 2).now_pos⌋ ∧
    (0 : ℚ) ≤ 3 * ((Metronome.init 0).tick 2).now_pos :=
  ⟨(metronome_get_beat_info_spec ((Metronome.init 0).tick 2) 3).2.2.2.2.1
      (by norm_num [Metronome.init, Metronome.tick]),
   by norm_num [Metronome.init, Metronome.tick]⟩

/-- C8 counterexample: at position 1/2 with scale factor -1 the scaled
position is -1/2; the code's count is int(-1/2) = 0 while the claimed
floor is -1, and this_frame is false although the floors of the scaled
previous (0) and current (-1/2) positions differ. -/
theorem metronome_beat_floor_cex :
    (((Metronome.init 0).tick (1/2)).get_beat_info (-1)).count = 0 ∧
    ⌊(-1 : ℚ) * ((Metronome.init 0).tick (1/2)).now_pos⌋ = -1 ∧
    (((Metronome.init 0).tick (1/2)).get_beat_info (-1)).this_frame = false ∧
    ⌊(-1 : ℚ) * ((Metronome.init 0).tick (1/2)).prev_pos⌋ ≠
      ⌊(-1 : ℚ) * ((Metronome.init 0).tick (1/2)).now_pos⌋ := by
  have hnow : ((Metronome.init 0).tick (1/2)).now_pos = 1/2 := by
    norm_num [Metronome.init, Metronome.tick]
  have hprev : ((Metronome.init 0).tick (1/2)).prev_pos = 0 := by
    norm_num [Metronome.init, Metronome.tick]
  refine ⟨?_, ?_, ?_, ?_⟩
  · show pytrunc ((-1) * ((Metronome.init 0).tick (1/2)).now_pos) = 0
    rw [hnow]
    norm_num [pytrunc]
  · rw [hnow]
    norm_num
  · show (pytrunc ((-1) * ((Metronome.init 0).tick (1/2)).prev_pos) !=
        pytrunc ((-1) * ((Metronome.init 0).tick (1/2)).now_pos)) = false
    rw [hnow, hprev]
    norm_num [pytrunc]
  · rw [hnow, hprev]
    norm_num

/-! ## OS2L server and APC device claims -/

/-- C1: contrary to the claim, a zero-length read (CPython `recv`
returns `b""` when the peer closes, never `None`) triggers *no* cleanup:
the client stays connected and registered and the receive buffer is
retained (shown both for an empty and a partially-filled buffer), because
the code's lost-connection test is `data is None`, which never fires.
Even the dead `None` branch never deregisters the socket from the
selector. -/
theorem os2l_zero_length_read_ignored :
    recv_from_client ⟨true, true, []⟩ (some []) = (⟨true, true, []⟩, [], none) ∧
    recv_from_client ⟨true, true, ("\x7b\"ev").data⟩ (some []) =
      (⟨true, true, ("\x7b\"ev").data⟩, [], none) ∧
    (recv_from_client ⟨true, true, []⟩ none).1.client_registered = true := by
  refine ⟨rfl, rfl, rfl⟩

/-- C7: delivering the beat object split mid-object in two writes yields
no events after the first write (no closing brace: the partial frame is
buffered) and exactly one BeatEvent with change=true, pos=4, bpm=128,
strength=1 after the second, with the buffer fully consumed. -/
theorem os2l_beat_partial_frames :
    recv_from_client ⟨true, true, []⟩ (some beatFramePart1) =
      (⟨true, true, beatFramePart1⟩, [], none) ∧
    recv_from_client ⟨true, true, beatFramePart1⟩ (some beatFramePart2) =
      (⟨true, true, []⟩,
       [.beat (.jbool true) (.jnum 4) (.jnum 128) (.jnum 1)], none) := by
  refine ⟨rfl, rfl⟩

/-- C2: contrary to the claim, when no MIDI port matches "APC mini mk2"
`connect` raises `AttributeError` (it sets `self.outport = None` and then
unconditionally calls `self.outport.send(...)`) instead of completing as a
no-op stub; input polls on the resulting device do yield no events, and
`set_led_state` still updates the shadow map but then raises on the
send. -/
theorem apc_connect_headless_raises :
    (Device.init.connect [] []).2 = .error .attributeError ∧
    (Device.init.connect [] []).1.inport = false ∧
    (Device.init.connect [] []).1.outport = false ∧
    (Device.init.connect [] []).1.tick [.note_on 0] = ((Device.init.connect [] []).1, [], none) ∧
    ((Device.init.connect [] []).1.set_led_state ⟨.pad, 0, 0⟩ (.pad 6 9 9 9)).1.led_state_by_id
        ⟨.pad, 0, 0⟩ = some (.pad 6 9 9 9) ∧
    ((Device.init.connect [] []).1.set_led_state ⟨.pad, 0, 0⟩ (.pad 6 9 9 9)).2 =
      .error .attributeError := by
  refine ⟨rfl, rfl, rfl, rfl, rfl, rfl⟩

/-- C10: `set_led_state c s` modifies only the shadow LED entry for `c`:
every other control's LED state reads back unchanged, every control's
input state (raw and via `get_input_state`) is unchanged, and the ports
are untouched. -/
theorem set_led_state_frame (d : Device) (c : ControlID) (s : LedState) (x : ControlID)
    (hx : x ≠ c) :
    (d.set_led_state c s).1.get_led_state x = d.get_led_state x ∧
    (d.set_led_state c s).1.led_state_by_id c = some s ∧
    (∀ y, (d.set_led_state c s).1.input_state_by_id y = d.input_state_by_id y) ∧
    (∀ y, (d.set_led_state c s).1.get_input_state y = d.get_input_state y) ∧
    (d.set_led_state c s).1.inport = d.inport ∧
    (d.set_led_state c s).1.outport = d.outport := by
  refine ⟨?_, ?_, fun y => rfl, fun y => rfl, rfl, rfl⟩
  · simp [Device.set_led_state, Device.setLedEntry, Device.get_led_state, hx]
  · simp [Device.set_led_state, Device.setLedEntry]

/-- Witness for C10: setting pad (0,0) leaves pad (1,0) unchanged and
stores the new state at (0,0). -/
theorem set_led_state_frame_witness :
    (Device.init.set_led_state ⟨.pad, 0, 0⟩ (.pad 6 1 2 3)).1.get_led_state ⟨.pad, 1, 0⟩ =
      Device.init.get_led_state ⟨.pad, 1, 0⟩ ∧
    (Device.init.set_led_state ⟨.pad, 0, 0⟩ (.pad 6 1 2 3)).1.led_state_by_id ⟨.pad, 0, 0⟩ =
      some (.pad 6 1 2 3) :=
  ⟨(set_led_state_frame Device.init ⟨.pad, 0, 0⟩ (.pad 6 1 2 3) ⟨.pad, 1, 0⟩ (by decide)).1,
   (set_led_state_frame Device.init ⟨.pad, 0, 0⟩ (.pad 6 1 2 3) ⟨.pad, 1, 0⟩ (by decide)).2.1⟩
